import Mathlib

/-!
Shallow embedding of the rt-renderer frame pipeline (src/src/lib.rs,
src/src/pipeline/mod.rs, src/src/pipeline/sample/mod.rs, src/src/gltf.rs).

32-bit floats are modelled as exact rationals; GPU command recording is
modelled as a trace of commands; GPU futures are modelled as a chaining
tree with an explicit signal-time semantics.
-/

namespace Renderer

/-- Rational stand-in for f32 values. -/
abbrev F := ℚ

abbrev Vec2 := F × F
abbrev Vec3 := F × F × F

/-- A 4x4 matrix as rows of rationals (cgmath::Matrix4<f32>). -/
abbrev Mat4 := List (List F)

/-- The 4x4 identity matrix (cgmath::Matrix4::identity()). -/
def matIdentity : Mat4 :=
  [[1, 0, 0, 0], [0, 1, 0, 0], [0, 0, 1, 0], [0, 0, 0, 1]]

/-- Image formats used by the app (vulkano::format::Format). -/
inductive ImageFormat where
  | R16G16B16A16_SFLOAT
  | D32_SFLOAT
  deriving DecidableEq, Repr

/-- An image view: the underlying image's extent, sample count and format
(vulkano::image::view::ImageView). -/
structure ImageView where
  extent : Nat × Nat × Nat
  samples : Nat
  format : ImageFormat
  deriving DecidableEq, Repr

inductive AttachmentLoadOp where
  | Clear
  | Load
  | DontCare
  deriving DecidableEq, Repr

inductive AttachmentStoreOp where
  | Store
  | DontCare
  deriving DecidableEq, Repr

inductive ClearValue where
  | Color (rgba : F × F × F × F)
  | Depth (d : F)
  deriving DecidableEq, Repr

/-- vulkano RenderingAttachmentInfo. `resolveMode = none` is the default
produced by `RenderingAttachmentInfo::image_view` (no multisample resolve). -/
structure RenderingAttachmentInfo where
  imageView : ImageView
  loadOp : AttachmentLoadOp
  storeOp : AttachmentStoreOp
  clearValue : Option ClearValue
  resolveMode : Option Nat
  deriving DecidableEq, Repr

/-- vulkano RenderingInfo: the attachments a render scope is begun over. -/
structure RenderingInfo where
  colorAttachments : List (Option RenderingAttachmentInfo)
  depthAttachment : Option RenderingAttachmentInfo
  deriving DecidableEq, Repr

/-- vulkano Viewport; the default has offset [0,0] and depth range 0..=1. -/
structure Viewport where
  offset : F × F
  extent : F × F
  minDepth : F
  maxDepth : F
  deriving DecidableEq, Repr

/-- Vertex layout uploaded to the GPU (MyVertex in src/src/lib.rs). -/
structure MyVertex where
  position : Vec3
  normal : Vec3
  tex_coord : Vec2
  deriving DecidableEq, Repr

/-- The vertex-stage push-constant block (vs::PushConstants). -/
structure PushConstants where
  view : Mat4
  proj : Mat4
  camera_pos : Vec3
  deriving DecidableEq, Repr

/-- The set-0 binding-0 uniform block (vs::ModelBuffer). -/
structure ModelBuffer where
  model : Mat4
  deriving DecidableEq, Repr

/-- The set-1 binding-0 uniform block (fs::Material). -/
structure Material where
  ambient : Vec3
  diffuse : Vec3
  specular : Vec3
  shininess : F
  deriving DecidableEq, Repr

/-- The set-1 binding-1 uniform block (fs::Light). -/
structure Light where
  position : Vec3
  ambient : Vec3
  diffuse : Vec3
  specular : Vec3
  deriving DecidableEq, Repr

/-- Data held by one uniform buffer. -/
inductive UniformData where
  | model (m : ModelBuffer)
  | material (m : Material)
  | light (l : Light)
  deriving DecidableEq, Repr

/-- vulkano WriteDescriptorSet::buffer(binding, buffer). -/
structure WriteDescriptorSet where
  binding : Nat
  buffer : UniformData
  deriving DecidableEq, Repr

/-- A descriptor set: the writes it was created with. -/
structure DescriptorSet where
  writes : List WriteDescriptorSet
  deriving DecidableEq, Repr

inductive PrimitiveTopology where
  | TriangleList
  | PointList
  deriving DecidableEq, Repr

inductive CullMode where
  | Back
  | Front
  | Disabled
  deriving DecidableEq, Repr

inductive CompareOp where
  | Less
  | Always
  deriving DecidableEq, Repr

inductive DynamicState where
  | Viewport
  deriving DecidableEq, Repr

/-- vulkano MultisampleState (only the rasterization sample count matters here). -/
structure MultisampleState where
  rasterization_samples : Nat
  deriving DecidableEq, Repr

/-- `MultisampleState::default()`: one sample per pixel. -/
def MultisampleState.default : MultisampleState :=
  { rasterization_samples := 1 }

structure DepthState where
  compare_op : CompareOp
  write_enable : Bool
  deriving DecidableEq, Repr

/-- vulkano PipelineRenderingCreateInfo (the fields the code sets). -/
structure PipelineRenderingCreateInfo where
  color_attachment_formats : List (Option ImageFormat)
  depth_attachment_format : Option ImageFormat
  deriving DecidableEq, Repr

/-- The fixed-function configuration baked into the graphics pipeline by
SamplePipeline::new (GraphicsPipelineCreateInfo fields the code sets). -/
structure GraphicsPipelineDesc where
  topology : PrimitiveTopology
  cull_mode : CullMode
  multisample_state : MultisampleState
  depth_state : Option DepthState
  color_blend_attachment_count : Nat
  dynamic_state : List DynamicState
  color_attachment_formats : List (Option ImageFormat)
  depth_attachment_format : Option ImageFormat
  deriving DecidableEq, Repr

/-- A recorded GPU command (the RecordingCommandBuffer operations the code
uses; updateBuffer is in the API vocabulary but never issued by this code). -/
inductive Cmd where
  | bindPipelineGraphics (p : GraphicsPipelineDesc)
  | bindVertexBuffers (first : Nat) (vertices : List MyVertex)
  | bindDescriptorSets (firstSet : Nat) (sets : List DescriptorSet)
  | pushConstants (offset : Nat) (data : PushConstants)
  | bindIndexBuffer (indices : List Nat)
  | drawIndexed (indexCount instanceCount firstIndex : Nat) (vertexOffset : Int)
      (firstInstance : Nat)
  | draw (vertexCount instanceCount firstVertex firstInstance : Nat)
  | beginRendering (info : RenderingInfo)
  | setViewport (first : Nat) (viewports : List Viewport)
  | endRendering
  | updateBuffer (data : UniformData)
  deriving DecidableEq, Repr

/-- True exactly on draw-dispatch commands. -/
def Cmd.isDraw : Cmd → Bool
  | .drawIndexed .. => true
  | .draw .. => true
  | _ => false

/-- True exactly on buffer-update commands. -/
def Cmd.isUpdateBuffer : Cmd → Bool
  | .updateBuffer .. => true
  | _ => false

/-- True exactly on indexed draw commands. -/
def Cmd.isIndexedDraw : Cmd → Bool
  | .drawIndexed .. => true
  | _ => false

/-- True exactly on descriptor-set binding commands. -/
def Cmd.isBindDescriptorSets : Cmd → Bool
  | .bindDescriptorSets .. => true
  | _ => false

/-- The camera handed to render_object (pipeline::sample::Camera). -/
structure Camera where
  view : Mat4
  proj : Mat4
  position : Vec3
  deriving DecidableEq, Repr

/-- The SamplePipeline value: the built pipeline plus the two descriptor
sets created at construction. -/
structure SamplePipeline where
  pipeline : GraphicsPipelineDesc
  descriptor_sets : List DescriptorSet
  deriving DecidableEq, Repr

/-- SamplePipeline::render_object (src/src/pipeline/sample/mod.rs, lines
205-249): bind pipeline, vertex buffer, the two descriptor sets, push the
camera as push constants, then issue exactly one draw — indexed when an
index buffer is supplied, non-indexed otherwise. Buffer lengths pass
through a `u64 as u32` cast, modelled as `% 2 ^ 32`. -/
def SamplePipeline.render_object (self : SamplePipeline)
    (vertex_buffer : List MyVertex) (index_buffer : Option (List Nat))
    (camera : Camera) : List Cmd :=
  let vertex_count := vertex_buffer.length % 2 ^ 32
  [Cmd.bindPipelineGraphics self.pipeline,
   Cmd.bindVertexBuffers 0 vertex_buffer,
   Cmd.bindDescriptorSets 0 self.descriptor_sets,
   Cmd.pushConstants 0
     { view := camera.view, proj := camera.proj, camera_pos := camera.position }]
  ++ match index_buffer with
     | some ib =>
       let index_count := ib.length % 2 ^ 32
       [Cmd.bindIndexBuffer ib, Cmd.drawIndexed index_count 1 0 0 0]
     | none => [Cmd.draw vertex_count 1 0 0]

/-- A GPU future (vulkano GpuFuture): a base signal, the join of two
futures, or execution of a command buffer chained after a future. -/
inductive GpuFuture where
  | base (t : Nat)
  | join (a b : GpuFuture)
  | thenExecute (before : GpuFuture) (commands : List Cmd)
  deriving DecidableEq, Repr

/-- Signal-time semantics of a future, given an execution-duration
assignment for command buffers: a base signal fires at its given time, a
join signals when both parts have signalled, and a chained execution
starts only after its dependency signals and signals when its command
buffer finishes. -/
def GpuFuture.signalTime (dur : List Cmd → Nat) : GpuFuture → Nat
  | .base t => t
  | .join a b => max (a.signalTime dur) (b.signalTime dur)
  | .thenExecute before cmds => before.signalTime dur + dur cmds

/-- The command sequence recorded by `draw` (src/src/pipeline/mod.rs, lines
26-69): begin a render scope over the destination color view (clear to
(0,0,0,1), store) and the depth view (clear to 1.0, discard), set the
full-target viewport from the destination extent, run the caller's
recording callback, end the scope. -/
def drawCommands (dst_image depth_image : ImageView) (record_fn : List Cmd) :
    List Cmd :=
  let viewport : Viewport :=
    { offset := (0, 0),
      extent := ((dst_image.extent.1 : F), (dst_image.extent.2.1 : F)),
      minDepth := 0, maxDepth := 1 }
  Cmd.beginRendering
    { colorAttachments :=
        [some { imageView := dst_image, loadOp := .Clear, storeOp := .Store,
                clearValue := some (.Color (0, 0, 0, 1)), resolveMode := none }],
      depthAttachment :=
        some { imageView := depth_image, loadOp := .Clear, storeOp := .DontCare,
               clearValue := some (.Depth 1), resolveMode := none } }
  :: Cmd.setViewport 0 [viewport]
  :: record_fn ++ [Cmd.endRendering]

/-- pipeline::draw (src/src/pipeline/mod.rs, lines 18-72): record a
one-time-submit command buffer of `drawCommands` and chain its execution
strictly after the `before` future, returning the chained future. The
recording callback is passed as the list of commands it records; the
allocator and queue are identity-only plumbing. -/
def draw (before : GpuFuture) (command_buffer_allocator queue : Nat)
    (dst_image depth_image : ImageView) (record_fn : List Cmd) : GpuFuture :=
  GpuFuture.thenExecute before (drawCommands dst_image depth_image record_fn)

/-- Modelled from the spec: the swapchain acquire of the external window
renderer (vulkano_util::renderer::VulkanoWindowRenderer, not part of this
repository) returns a future chained from the previous frame's submission
and the acquired image's availability signal. -/
def acquireFuture (prevFrameEnd imageAvailable : GpuFuture) : GpuFuture :=
  GpuFuture.join prevFrameEnd imageAvailable

/-- Sizes, in bytes, of the push-constant blocks reflected from the vertex
and fragment shader sources (sample.vert / sample.frag, external inputs of
the vulkano_shaders build step). -/
structure ShaderInterface where
  vsPushConstantsSize : Nat
  fsPushConstantsSize : Nat
  deriving DecidableEq, Repr

inductive ShaderStage where
  | vertex
  | fragment
  deriving DecidableEq, Repr

/-- An observable step of SamplePipeline::new; submit is in the vocabulary
but never performed by construction. -/
inductive BuildEvent where
  | pushConstantSizeAssertFailed
  | loadShaderModule (stage : ShaderStage)
  | buildGraphicsPipeline (desc : GraphicsPipelineDesc)
  | createUniformBuffer (data : UniformData)
  | createDescriptorSet (setIndex : Nat) (writes : List WriteDescriptorSet)
  | submitGpuWork
  deriving DecidableEq, Repr

/-- True exactly on uniform-buffer creation events. -/
def BuildEvent.isCreateUniformBuffer : BuildEvent → Bool
  | .createUniformBuffer .. => true
  | _ => false

/-- True exactly on descriptor-set creation events. -/
def BuildEvent.isCreateDescriptorSet : BuildEvent → Bool
  | .createDescriptorSet .. => true
  | _ => false

/-- SamplePipeline::new (src/src/pipeline/sample/mod.rs, lines 75-203):
first assert that the vertex- and fragment-stage push-constant block sizes
agree (a panic, modelled as an event-free failure result); then load the
two shader modules, build the graphics pipeline (triangle list, back-face
culling, default multisample state, depth test Less with write enabled,
dynamic viewport, formats from the given rendering info), create the
three uniform buffers with the static scene values, and create the two
descriptor sets. Returns the event trace and, on success, the pipeline. -/
def SamplePipeline.new (shaders : ShaderInterface)
    (rendering_info : PipelineRenderingCreateInfo) :
    List BuildEvent × Option SamplePipeline :=
  if shaders.vsPushConstantsSize = shaders.fsPushConstantsSize then
    let desc : GraphicsPipelineDesc :=
      { topology := .TriangleList,
        cull_mode := .Back,
        multisample_state := MultisampleState.default,
        depth_state := some { compare_op := .Less, write_enable := true },
        color_blend_attachment_count :=
          rendering_info.color_attachment_formats.length,
        dynamic_state := [.Viewport],
        color_attachment_formats := rendering_info.color_attachment_formats,
        depth_attachment_format := rendering_info.depth_attachment_format }
    let model_uniform : ModelBuffer := { model := matIdentity }
    let material_uniform : Material :=
      { ambient := (0.1, 0.1, 0.1), diffuse := (0.7, 0.7, 0.7),
        specular := (0.5, 0.5, 0.5), shininess := 32 }
    let light_uniform : Light :=
      { position := (3, 3, 3), ambient := (1, 1, 1),
        diffuse := (1, 1, 1), specular := (2, 2, 2) }
    let vertex_descriptor_set : DescriptorSet :=
      { writes := [{ binding := 0, buffer := .model model_uniform }] }
    let fragment_descriptor_set : DescriptorSet :=
      { writes := [{ binding := 0, buffer := .material material_uniform },
                   { binding := 1, buffer := .light light_uniform }] }
    ([.loadShaderModule .vertex,
      .loadShaderModule .fragment,
      .buildGraphicsPipeline desc,
      .createUniformBuffer (.model model_uniform),
      .createUniformBuffer (.material material_uniform),
      .createUniformBuffer (.light light_uniform),
      .createDescriptorSet 0 vertex_descriptor_set.writes,
      .createDescriptorSet 1 fragment_descriptor_set.writes],
     some { pipeline := desc,
            descriptor_sets := [vertex_descriptor_set, fragment_descriptor_set] })
  else
    ([.pushConstantSizeAssertFailed], none)

/-- A vertex as produced by the external scene loader
(easy_gltf::model::Vertex; only the fields the code reads). -/
structure GltfVertex where
  position : Vec3
  normal : Vec3
  tex_coords : Vec2
  deriving DecidableEq, Repr

/-- A model as exposed by the external scene loader: a flat vertex list
and an optional 32-bit index list (easy_gltf::model::Model). -/
structure GltfModel where
  vertices : List GltfVertex
  indices : Option (List Nat)
  deriving DecidableEq, Repr

/-- A model uploaded to the GPU (MyModel in src/src/lib.rs). -/
structure MyModel where
  vertex_buffer : List MyVertex
  index_buffer : List Nat
  deriving DecidableEq, Repr

/-- From<easy_gltf::model::Vertex> for MyVertex (src/src/lib.rs, lines
56-64): copy position, normal and texture coordinates unchanged. -/
def MyVertex.ofGltf (vertex : GltfVertex) : MyVertex :=
  { position := vertex.position,
    normal := vertex.normal,
    tex_coord := vertex.tex_coords }

/-- The per-vertex transform applied during upload (src/src/lib.rs, lines
177-181): convert the glTF vertex and multiply the Y component of its
position by -1. -/
def uploadVertex (v : GltfVertex) : MyVertex :=
  let m := MyVertex.ofGltf v
  { m with position := (m.position.1, m.position.2.1 * (-1), m.position.2.2) }

/-- Upload of one model (src/src/lib.rs, lines 165-203): the vertex buffer
is the mapped vertex list; the index buffer is `model.indices().unwrap()`,
so a model without an index sequence panics — modelled as `none`. -/
def uploadModel (model : GltfModel) : Option MyModel :=
  match model.indices with
  | some indices =>
    some { vertex_buffer := model.vertices.map uploadVertex,
           index_buffer := indices }
  | none => none

/-- Upload of the whole scene (src/src/lib.rs, lines 162-204): every model
is uploaded in order; a panic in any upload aborts the run before the
event loop starts, modelled as `none`. -/
def uploadModels : List GltfModel → Option (List MyModel)
  | [] => some []
  | m :: rest =>
    match uploadModel m, uploadModels rest with
    | some bm, some bms => some (bm :: bms)
    | _, _ => none

/-- The recording callback of redraw (src/src/lib.rs, lines 280-292): for
each uploaded model, render it with its index buffer always supplied. -/
def recordScene (sample_pipeline : SamplePipeline) (models : List MyModel)
    (camera : Camera) : List Cmd :=
  models.flatMap fun model =>
    sample_pipeline.render_object model.vertex_buffer
      (some model.index_buffer) camera

/-- App::run up to the first frame (src/src/lib.rs): geometry upload runs
before the event loop; a frame trace exists only if every model uploaded. -/
def appRunFrame (scene : List GltfModel) (sample_pipeline : SamplePipeline)
    (camera : Camera) : Option (List Cmd) :=
  (uploadModels scene).map fun models => recordScene sample_pipeline models camera

/-- The rendering info App::run passes to SamplePipeline::new
(src/src/lib.rs, lines 145-158): the swapchain format requested at window
creation and a D32 depth format. -/
def appRenderingInfo : PipelineRenderingCreateInfo :=
  { color_attachment_formats := [some .R16G16B16A16_SFLOAT],
    depth_attachment_format := some .D32_SFLOAT }

/-- The sample count App::run uses for the depth and MSAA color images
(src/src/lib.rs, line 233: SampleCount::Sample4). -/
def appSamples : Nat := 4

/-- The depth image App::run creates once before the event loop
(src/src/lib.rs, lines 235-250). -/
def mkDepthImage (extent : Nat × Nat) : ImageView :=
  { extent := (extent.1, extent.2, 1), samples := appSamples,
    format := .D32_SFLOAT }

/-- The MSAA color image App::run creates once before the event loop
(src/src/lib.rs, lines 252-267). -/
def mkMsaaColorImage (extent : Nat × Nat) : ImageView :=
  { extent := (extent.1, extent.2, 1), samples := appSamples,
    format := .R16G16B16A16_SFLOAT }

/-- Modelled from the spec: the state of the external window renderer
(vulkano_util::renderer::VulkanoWindowRenderer, not in this repository) —
the current output extent, the swapchain extent, and whether the swapchain
has been marked stale. -/
structure RendererState where
  windowExtent : Nat × Nat
  swapchainExtent : Nat × Nat
  swapchainStale : Bool
  deriving DecidableEq, Repr

/-- Modelled from the spec: `VulkanoWindowRenderer::resize` marks the
swapchain stale; recreation is deferred to the next acquire. -/
def RendererState.resize (r : RendererState) : RendererState :=
  { r with swapchainStale := true }

/-- Modelled from the spec: `VulkanoWindowRenderer::acquire` recreates a
stale swapchain at the current output extent before acquiring. -/
def RendererState.acquire (r : RendererState) : RendererState :=
  if r.swapchainStale then
    { r with swapchainExtent := r.windowExtent, swapchainStale := false }
  else r

/-- The event-loop state of App::run: the window renderer plus the depth
and MSAA color views created once before the loop, and the exit flag. -/
structure LoopState where
  renderer : RendererState
  depth_image : ImageView
  msaa_color_image : ImageView
  exitRequested : Bool
  deriving DecidableEq, Repr

/-- The window events the event loop consumes (src/src/lib.rs run). -/
inductive WinEvent where
  | closeRequested
  | resized (w h : Nat)
  | scaleFactorChanged
  | redrawRequested
  | aboutToWait
  deriving DecidableEq, Repr

/-- The event match of App::run (src/src/lib.rs, lines 297-320):
close requests exit; Resized and ScaleFactorChanged call only
`renderer.resize()`; RedrawRequested runs redraw, whose first step is
`renderer.acquire()`; AboutToWait requests the next redraw. The depth and
MSAA color views are captured immutably and no arm touches them. -/
def handleEvent (s : LoopState) (e : WinEvent) : LoopState :=
  match e with
  | .closeRequested => { s with exitRequested := true }
  | .resized w h =>
    { s with renderer :=
        RendererState.resize { s.renderer with windowExtent := (w, h) } }
  | .scaleFactorChanged => { s with renderer := s.renderer.resize }
  | .redrawRequested => { s with renderer := s.renderer.acquire }
  | .aboutToWait => s

/-- The loop state at startup: window and swapchain at 1280x720
(src/src/lib.rs, lines 115-129), attachments created at that extent. -/
def initLoopState : LoopState :=
  { renderer :=
      { windowExtent := (1280, 720), swapchainExtent := (1280, 720),
        swapchainStale := false },
    depth_image := mkDepthImage (1280, 720),
    msaa_color_image := mkMsaaColorImage (1280, 720),
    exitRequested := false }

/-- The configured orbit radius of the camera (src/src/lib.rs camera_fn). -/
def orbitRadius : ℝ := 3

/-- The configured camera height (src/src/lib.rs camera_fn). -/
def cameraHeight : ℝ := 1

/-- The configured angular speed of the orbit (src/src/lib.rs camera_fn). -/
def angularSpeed : ℝ := 0.5

/-- The position computed by camera_fn (src/src/lib.rs, lines 207-223):
`((elapsed * 0.5).sin() * 3.0, 1.0, (elapsed * 0.5).cos() * 3.0)`,
with f32 trigonometry idealised over the reals. -/
noncomputable def camera_fn_position (elapsed : ℝ) : ℝ × ℝ × ℝ :=
  (Real.sin (elapsed * 0.5) * 3.0, 1.0, Real.cos (elapsed * 0.5) * 3.0)

/-! ## Theorems -/

/-- Claim C1: for consecutive frames, where frame N+1's dependency future
is chained after frame N's completion token (as the acquire/submit chain
arranges), the token `draw` returns for frame N+1 signals exactly when
frame N+1's recorded work finishes — which starts only after the
dependency signals — and therefore never signals before frame N's token. -/
theorem c1_submission_chain_ordering (dur : List Cmd → Nat)
    (tN before : GpuFuture) (alloc queue : Nat) (dst depth : ImageView)
    (record_fn : List Cmd)
    (hchain : tN.signalTime dur ≤ before.signalTime dur) :
    tN.signalTime dur ≤
      (draw before alloc queue dst depth record_fn).signalTime dur ∧
    (draw before alloc queue dst depth record_fn).signalTime dur =
      before.signalTime dur + dur (drawCommands dst depth record_fn) :=
  ⟨le_trans hchain (Nat.le_add_right _ _), rfl⟩

/-- Witness for C1 at a concrete chained submission. -/
theorem c1_submission_chain_ordering_witness :
    (GpuFuture.base 5).signalTime List.length ≤
      (GpuFuture.join (.base 5) (.base 7)).signalTime List.length ∧
    ((GpuFuture.base 5).signalTime List.length ≤
      (draw (GpuFuture.join (.base 5) (.base 7)) 0 0
        ⟨(1280, 720, 1), 1, .R16G16B16A16_SFLOAT⟩
        ⟨(1280, 720, 1), 1, .D32_SFLOAT⟩ []).signalTime List.length ∧
    (draw (GpuFuture.join (.base 5) (.base 7)) 0 0
        ⟨(1280, 720, 1), 1, .R16G16B16A16_SFLOAT⟩
        ⟨(1280, 720, 1), 1, .D32_SFLOAT⟩ []).signalTime List.length =
      (GpuFuture.join (.base 5) (.base 7)).signalTime List.length +
        List.length (drawCommands ⟨(1280, 720, 1), 1, .R16G16B16A16_SFLOAT⟩
          ⟨(1280, 720, 1), 1, .D32_SFLOAT⟩ [])) :=
  ⟨by decide,
   c1_submission_chain_ordering List.length (.base 5)
     (.join (.base 5) (.base 7)) 0 0
     ⟨(1280, 720, 1), 1, .R16G16B16A16_SFLOAT⟩
     ⟨(1280, 720, 1), 1, .D32_SFLOAT⟩ [] (by decide)⟩

/-- Claim C2: render_object issues exactly one draw — an indexed draw
with (index_count, 1, 0, 0, 0) when an index buffer is supplied, a
non-indexed draw with (vertex_count, 1, 0, 0) otherwise — where the
counts are the buffer lengths (below the u32 cast bound). -/
theorem c2_render_object_draw_dispatch (p : SamplePipeline)
    (vertex_buffer : List MyVertex) (index_buffer : Option (List Nat))
    (camera : Camera)
    (hv : vertex_buffer.length < 2 ^ 32)
    (hi : ∀ ib, index_buffer = some ib → ib.length < 2 ^ 32) :
    (p.render_object vertex_buffer index_buffer camera).filter Cmd.isDraw =
      match index_buffer with
      | some ib => [Cmd.drawIndexed ib.length 1 0 0 0]
      | none => [Cmd.draw vertex_buffer.length 1 0 0] := by
  cases index_buffer with
  | none =>
    simp [SamplePipeline.render_object, Cmd.isDraw, Nat.mod_eq_of_lt hv]
    omega
  | some ib =>
    have hib := hi ib rfl
    simp [SamplePipeline.render_object, Cmd.isDraw, Nat.mod_eq_of_lt hib]
    omega

/-- Witness for C2 at a concrete one-triangle model. -/
theorem c2_render_object_draw_dispatch_witness :
    ([(⟨(0, 0, 0), (0, 0, 1), (0, 0)⟩ : MyVertex)].length < 2 ^ 32) ∧
    (SamplePipeline.render_object
      ⟨⟨.TriangleList, .Back, ⟨1⟩, none, 1, [], [], none⟩, []⟩
      [⟨(0, 0, 0), (0, 0, 1), (0, 0)⟩] (some [0, 1, 2])
      ⟨[], [], (0, 0, 0)⟩).filter Cmd.isDraw =
      [Cmd.drawIndexed 3 1 0 0 0] :=
  ⟨by decide,
   c2_render_object_draw_dispatch
     ⟨⟨.TriangleList, .Back, ⟨1⟩, none, 1, [], [], none⟩, []⟩
     [⟨(0, 0, 0), (0, 0, 1), (0, 0)⟩] (some [0, 1, 2])
     ⟨[], [], (0, 0, 0)⟩ (by decide)
     (fun ib h => by cases h; decide)⟩

/-- Claim C6 (code evaluation): `draw` accepts only a destination color
view and a depth view — there is no parameter for an intermediate
multisampled color view — and the render scope it begins covers exactly
one color attachment (the destination, with no resolve) plus the depth
attachment. -/
theorem c6_draw_render_scope_color_depth_only (before : GpuFuture)
    (alloc queue : Nat) (dst depth : ImageView) (record_fn : List Cmd) :
    draw before alloc queue dst depth record_fn =
      GpuFuture.thenExecute before (drawCommands dst depth record_fn) ∧
    (drawCommands dst depth record_fn).head? = some (Cmd.beginRendering
      { colorAttachments :=
          [some { imageView := dst, loadOp := .Clear, storeOp := .Store,
                  clearValue := some (.Color (0, 0, 0, 1)),
                  resolveMode := none }],
        depthAttachment :=
          some { imageView := depth, loadOp := .Clear,
                 storeOp := .DontCare, clearValue := some (.Depth 1),
                 resolveMode := none } }) :=
  ⟨rfl, rfl⟩

/-- Claim C3: pipeline construction asserts equality of the vertex- and
fragment-stage push-constant block sizes as its very first step: on a
mismatch it fails hard with no shader loading, pipeline building, or GPU
submission event having occurred, and when the sizes agree the assertion
branch is never taken and construction succeeds. -/
theorem c3_push_constant_size_assert (n m k : Nat)
    (ri : PipelineRenderingCreateInfo) (hne : n ≠ m) :
    SamplePipeline.new ⟨n, m⟩ ri =
      ([BuildEvent.pushConstantSizeAssertFailed], none) ∧
    BuildEvent.pushConstantSizeAssertFailed ∉ (SamplePipeline.new ⟨k, k⟩ ri).1 ∧
    (SamplePipeline.new ⟨k, k⟩ ri).2.isSome = true := by
  refine ⟨?_, ?_, ?_⟩
  · simp [SamplePipeline.new, hne]
  · simp [SamplePipeline.new]
  · simp [SamplePipeline.new]

/-- Witness for C3 at concrete mismatched (144 vs 140) and matched sizes. -/
theorem c3_push_constant_size_assert_witness :
    SamplePipeline.new ⟨144, 140⟩ ⟨[], none⟩ =
      ([BuildEvent.pushConstantSizeAssertFailed], none) ∧
    BuildEvent.pushConstantSizeAssertFailed ∉
      (SamplePipeline.new ⟨144, 144⟩ ⟨[], none⟩).1 ∧
    (SamplePipeline.new ⟨144, 144⟩ ⟨[], none⟩).2.isSome = true :=
  c3_push_constant_size_assert 144 140 144 ⟨[], none⟩ (by decide)

/-- Claim C5 (counterexample): the app configures its frame attachments at
sample count 4, yet the pipeline built from the app's rendering info has
the fixed default multisample state (one sample) — the construction has no
sample-count parameter and never uses the configured count. -/
theorem c5_multisample_counterexample :
    ((SamplePipeline.new ⟨144, 144⟩ appRenderingInfo).2.map
      fun p => p.pipeline.multisample_state.rasterization_samples) = some 1 ∧
    appSamples = 4 ∧ (1 : Nat) ≠ 4 := by
  refine ⟨?_, rfl, by decide⟩
  simp [SamplePipeline.new, MultisampleState.default]

/-- Claim C5 (amended): pipeline construction takes no sample count; for
every rendering info the built pipeline's multisample state is the fixed
default `MultisampleState` (one sample per pixel). -/
theorem c5_multisample_is_default (k : Nat)
    (ri : PipelineRenderingCreateInfo) :
    ((SamplePipeline.new ⟨k, k⟩ ri).2.map
      fun p => p.pipeline.multisample_state) = some MultisampleState.default := by
  simp [SamplePipeline.new]

/-- Claim C7: construction creates exactly three uniform buffers, each once
with its static value (identity model transform, the fixed material, the
fixed light), and exactly two descriptor sets — set 0 = {binding 0: model},
set 1 = {binding 0: material, binding 1: light}; per-object rendering
never updates a buffer and binds exactly those construction-time sets
starting at set 0. -/
theorem c7_descriptor_bindings (k : Nat) (ri : PipelineRenderingCreateInfo)
    (vertex_buffer : List MyVertex) (index_buffer : Option (List Nat))
    (camera : Camera) :
    ((SamplePipeline.new ⟨k, k⟩ ri).1.filter BuildEvent.isCreateUniformBuffer) =
      [.createUniformBuffer (.model ⟨matIdentity⟩),
       .createUniformBuffer (.material
         ⟨(0.1, 0.1, 0.1), (0.7, 0.7, 0.7), (0.5, 0.5, 0.5), 32⟩),
       .createUniformBuffer (.light
         ⟨(3, 3, 3), (1, 1, 1), (1, 1, 1), (2, 2, 2)⟩)] ∧
    ((SamplePipeline.new ⟨k, k⟩ ri).1.filter BuildEvent.isCreateDescriptorSet) =
      [.createDescriptorSet 0 [⟨0, .model ⟨matIdentity⟩⟩],
       .createDescriptorSet 1
         [⟨0, .material ⟨(0.1, 0.1, 0.1), (0.7, 0.7, 0.7), (0.5, 0.5, 0.5), 32⟩⟩,
          ⟨1, .light ⟨(3, 3, 3), (1, 1, 1), (1, 1, 1), (2, 2, 2)⟩⟩]] ∧
    ((SamplePipeline.new ⟨k, k⟩ ri).2.map SamplePipeline.descriptor_sets) =
      some [⟨[⟨0, .model ⟨matIdentity⟩⟩]⟩,
            ⟨[⟨0, .material ⟨(0.1, 0.1, 0.1), (0.7, 0.7, 0.7), (0.5, 0.5, 0.5), 32⟩⟩,
              ⟨1, .light ⟨(3, 3, 3), (1, 1, 1), (1, 1, 1), (2, 2, 2)⟩⟩]⟩] ∧
    ((SamplePipeline.new ⟨k, k⟩ ri).2.map fun p =>
      (p.render_object vertex_buffer index_buffer camera).filter
        Cmd.isUpdateBuffer) = some [] ∧
    ((SamplePipeline.new ⟨k, k⟩ ri).2.map fun p =>
      (p.render_object vertex_buffer index_buffer camera).filter
        Cmd.isBindDescriptorSets) =
      some [Cmd.bindDescriptorSets 0
        [⟨[⟨0, .model ⟨matIdentity⟩⟩]⟩,
         ⟨[⟨0, .material ⟨(0.1, 0.1, 0.1), (0.7, 0.7, 0.7), (0.5, 0.5, 0.5), 32⟩⟩,
           ⟨1, .light ⟨(3, 3, 3), (1, 1, 1), (1, 1, 1), (2, 2, 2)⟩⟩]⟩]] := by
  refine ⟨?_, ?_, ?_, ?_, ?_⟩
  · simp [SamplePipeline.new, BuildEvent.isCreateUniformBuffer]
  · simp [SamplePipeline.new, BuildEvent.isCreateDescriptorSet]
  · simp [SamplePipeline.new]
  · cases index_buffer <;>
      simp [SamplePipeline.new, SamplePipeline.render_object, Cmd.isUpdateBuffer]
  · cases index_buffer <;>
      simp [SamplePipeline.new, SamplePipeline.render_object,
        Cmd.isBindDescriptorSets]

/-- Claim C4: the camera position at elapsed time t is
(R·sin(w·t), H, R·cos(w·t)) for the configured radius R = 3, height H = 1
and angular speed w = 0.5; at t = 0 it is (0, H, R), and at every t it
lies at distance R from the origin in the XZ-plane. -/
theorem c4_camera_orbit (t : ℝ) :
    camera_fn_position 0 = (0, cameraHeight, orbitRadius) ∧
    camera_fn_position t =
      (orbitRadius * Real.sin (angularSpeed * t), cameraHeight,
       orbitRadius * Real.cos (angularSpeed * t)) ∧
    (camera_fn_position t).1 ^ 2 + (camera_fn_position t).2.2 ^ 2 =
      orbitRadius ^ 2 := by
  refine ⟨?_, ?_, ?_⟩
  · simp [camera_fn_position, cameraHeight, orbitRadius]
    norm_num
  · simp only [camera_fn_position, orbitRadius, cameraHeight, angularSpeed,
      Prod.mk.injEq]
    refine ⟨by rw [mul_comm t (0.5 : ℝ)]; ring, by norm_num,
      by rw [mul_comm t (0.5 : ℝ)]; ring⟩
  · simp only [camera_fn_position, orbitRadius]
    have h := Real.sin_sq_add_cos_sq (t * 0.5)
    nlinarith [h]

/-- Claim C8 (counterexample): starting from the initial 1280x720 state,
after a resize event to 800x600 and the following redraw (whose acquire
recreates the stale swapchain), the swapchain matches the new extent but
the depth and MSAA color views still have the startup extent — they are
not recreated. -/
theorem c8_attachments_not_recreated_counterexample :
    (handleEvent (handleEvent initLoopState (.resized 800 600))
      .redrawRequested).renderer.swapchainExtent = (800, 600) ∧
    (handleEvent (handleEvent initLoopState (.resized 800 600))
      .redrawRequested).depth_image.extent = (1280, 720, 1) ∧
    (handleEvent (handleEvent initLoopState (.resized 800 600))
      .redrawRequested).msaa_color_image.extent = (1280, 720, 1) ∧
    ((1280, 720, 1) : Nat × Nat × Nat) ≠ (800, 600, 1) := by
  decide

/-- Claim C8 (amended): a resize or scale-factor-changed event marks only
the swapchain stale, and the next acquire recreates the swapchain at the
new extent; the depth and MSAA color views are left untouched by every
event — they are created once at startup and never recreated. -/
theorem c8_resize_marks_only_swapchain_stale (s : LoopState) (e : WinEvent)
    (w h : Nat) :
    (handleEvent s e).depth_image = s.depth_image ∧
    (handleEvent s e).msaa_color_image = s.msaa_color_image ∧
    (handleEvent s (.resized w h)).renderer.swapchainStale = true ∧
    (handleEvent s .scaleFactorChanged).renderer.swapchainStale = true ∧
    (handleEvent (handleEvent s (.resized w h))
      .redrawRequested).renderer.swapchainExtent = (w, h) := by
  refine ⟨?_, ?_, ?_, ?_, ?_⟩
  · cases e <;> rfl
  · cases e <;> rfl
  · rfl
  · rfl
  · simp [handleEvent, RendererState.resize, RendererState.acquire]

/-- Claim C9: for every model that uploads successfully, the i-th uploaded
vertex is the i-th source vertex with the Y component of its position
negated and the normal and texture coordinates unchanged, and the uploaded
index buffer is exactly the source index sequence. -/
theorem c9_geometry_upload_negates_y (m : GltfModel) (bm : MyModel)
    (i : Nat) (hup : uploadModel m = some bm) :
    bm.vertex_buffer[i]? = (m.vertices[i]?).map (fun v =>
      { position := (v.position.1, -v.position.2.1, v.position.2.2),
        normal := v.normal, tex_coord := v.tex_coords }) ∧
    m.indices = some bm.index_buffer := by
  cases hm : m.indices with
  | none => simp [uploadModel, hm] at hup
  | some idx =>
    simp only [uploadModel, hm] at hup
    cases hup
    constructor
    · simp only [List.getElem?_map]
      cases m.vertices[i]? with
      | none => rfl
      | some v =>
        simp [uploadVertex, MyVertex.ofGltf]
    · rfl

/-- Witness for C9 at a concrete single-vertex model. -/
theorem c9_geometry_upload_negates_y_witness :
    uploadModel ⟨[⟨(1, 2, 3), (0, 0, 1), (4, 5)⟩], some [0]⟩ =
      some ⟨[⟨(1, -2, 3), (0, 0, 1), (4, 5)⟩], [0]⟩ ∧
    ((⟨[⟨(1, -2, 3), (0, 0, 1), (4, 5)⟩], [0]⟩ : MyModel).vertex_buffer[0]? =
      ((⟨[⟨(1, 2, 3), (0, 0, 1), (4, 5)⟩], some [0]⟩ :
          GltfModel).vertices[0]?).map (fun v =>
        { position := (v.position.1, -v.position.2.1, v.position.2.2),
          normal := v.normal, tex_coord := v.tex_coords }) ∧
    (⟨[⟨(1, 2, 3), (0, 0, 1), (4, 5)⟩], some [0]⟩ : GltfModel).indices =
      some (⟨[⟨(1, -2, 3), (0, 0, 1), (4, 5)⟩], [0]⟩ : MyModel).index_buffer) :=
  ⟨by simp [uploadModel, uploadVertex, MyVertex.ofGltf],
   c9_geometry_upload_negates_y
     ⟨[⟨(1, 2, 3), (0, 0, 1), (4, 5)⟩], some [0]⟩
     ⟨[⟨(1, -2, 3), (0, 0, 1), (4, 5)⟩], [0]⟩ 0
     (by simp [uploadModel, uploadVertex, MyVertex.ofGltf])⟩

/-- Helper: if some model of the scene fails to upload, the whole scene
upload fails. -/
lemma uploadModels_eq_none_of_mem (scene : List GltfModel) (gm : GltfModel)
    (hmem : gm ∈ scene) (hnone : uploadModel gm = none) :
    uploadModels scene = none := by
  induction scene with
  | nil => cases hmem
  | cons hd tl ih =>
    rcases List.mem_cons.mp hmem with hhd | htl
    · subst hhd
      simp [uploadModels, hnone]
    · have htlnone : uploadModels tl = none := ih htl
      cases hupHd : uploadModel hd with
      | none => simp [uploadModels, hupHd]
      | some bm => simp [uploadModels, hupHd, htlnone]

/-- Helper: a scene that uploads completely has an index sequence on every
model. -/
lemma uploadModels_all_indices_isSome (scene : List GltfModel)
    (models : List MyModel) (hup : uploadModels scene = some models) :
    scene.all (fun g => g.indices.isSome) = true := by
  induction scene generalizing models with
  | nil => rfl
  | cons hd tl ih =>
    cases hupHd : uploadModel hd with
    | none => simp [uploadModels, hupHd] at hup
    | some bm =>
      cases hupTl : uploadModels tl with
      | none => simp [uploadModels, hupHd, hupTl] at hup
      | some bms =>
        have hhd : hd.indices.isSome := by
          cases hidx : hd.indices with
          | none => simp [uploadModel, hidx] at hupHd
          | some idx => rfl
        simp only [List.all_cons, hhd, Bool.true_and]
        exact ih bms hupTl

/-- Helper: the per-frame recording callback always supplies an index
buffer, so it never issues a non-indexed draw. -/
lemma recordScene_no_nonindexed_draw (p : SamplePipeline)
    (models : List MyModel) (camera : Camera) :
    (recordScene p models camera).filter
      (fun c => c.isDraw && !c.isIndexedDraw) = [] := by
  induction models with
  | nil => rfl
  | cons hd tl ih =>
    simp only [recordScene, List.flatMap_cons, List.filter_append] at ih ⊢
    rw [ih]
    simp [SamplePipeline.render_object, Cmd.isDraw, Cmd.isIndexedDraw]

/-- Claim C10: a scene containing a model without an index sequence fails
during geometry upload — no frame trace exists at all; conversely a scene
that uploads has an index sequence on every model, and the frame loop's
recording issues no non-indexed draw, only indexed ones. -/
theorem c10_missing_indices_panics (scene goodScene : List GltfModel)
    (gm : GltfModel) (p : SamplePipeline) (camera : Camera)
    (models : List MyModel)
    (hmem : gm ∈ scene) (hnone : gm.indices = none)
    (hup : uploadModels goodScene = some models) :
    uploadModels scene = none ∧
    appRunFrame scene p camera = none ∧
    goodScene.all (fun g => g.indices.isSome) = true ∧
    (recordScene p models camera).filter
      (fun c => c.isDraw && !c.isIndexedDraw) = [] := by
  have hupNone : uploadModel gm = none := by simp [uploadModel, hnone]
  have hscene := uploadModels_eq_none_of_mem scene gm hmem hupNone
  exact ⟨hscene, by simp [appRunFrame, hscene],
    uploadModels_all_indices_isSome goodScene models hup,
    recordScene_no_nonindexed_draw p models camera⟩

/-- Witness for C10 at a concrete index-less scene and a concrete good
scene. -/
theorem c10_missing_indices_panics_witness :
    uploadModels [(⟨[], none⟩ : GltfModel)] = none ∧
    appRunFrame [(⟨[], none⟩ : GltfModel)]
      ⟨⟨.TriangleList, .Back, ⟨1⟩, none, 1, [], [], none⟩, []⟩
      ⟨[], [], (0, 0, 0)⟩ = none ∧
    ([(⟨[⟨(0, 0, 0), (0, 0, 1), (0, 0)⟩], some [0, 0, 0]⟩ : GltfModel)].all
      (fun g => g.indices.isSome)) = true ∧
    (recordScene ⟨⟨.TriangleList, .Back, ⟨1⟩, none, 1, [], [], none⟩, []⟩
      [⟨[⟨(0, 0, 0), (0, 0, 1), (0, 0)⟩], [0, 0, 0]⟩]
      ⟨[], [], (0, 0, 0)⟩).filter
      (fun c => c.isDraw && !c.isIndexedDraw) = [] :=
  c10_missing_indices_panics [⟨[], none⟩]
    [⟨[⟨(0, 0, 0), (0, 0, 1), (0, 0)⟩], some [0, 0, 0]⟩]
    ⟨[], none⟩ ⟨⟨.TriangleList, .Back, ⟨1⟩, none, 1, [], [], none⟩, []⟩
    ⟨[], [], (0, 0, 0)⟩ [⟨[⟨(0, 0, 0), (0, 0, 1), (0, 0)⟩], [0, 0, 0]⟩]
    (by simp) rfl
    (by simp [uploadModels, uploadModel, uploadVertex, MyVertex.ofGltf])

end Renderer
